import Mathlib

set_option maxRecDepth 8000

/-!
Verification development for the LLM response cache of the ePub_Translator
backend (`backend/app/core/cache/llm_cache.py` and
`backend/app/core/cache/cached_gateway.py`).

The Python code is shallowly embedded: JSON values become an inductive type,
`time.time()` becomes an explicit rational-valued clock argument, the
per-project response directory becomes an explicit association list from cache
keys to file contents, and Python exceptions become explicit error values.
Every definition follows the corresponding Python function clause by clause.
The two library primitives the cache calls (SHA-256 and JSON text encoding)
are replaced by deterministic executable stand-ins, marked as such in their
doc comments; no theorem below depends on anything beyond their being
functions, except that the JSON stand-in sorts object keys exactly as
`json.dumps(..., sort_keys=True)` does, which is the property under study.
-/

/-- Code-point lexicographic order on character lists, written as an
executable Boolean so that it computes inside the kernel.  This is the order
Python's `sorted` (hence `json.dumps(..., sort_keys=True)`) applies to
string keys. -/
def listLeB : List Char → List Char → Bool
  | [], _ => true
  | _ :: _, [] => false
  | a :: as, b :: bs =>
      if a.toNat < b.toNat then true
      else if b.toNat < a.toNat then false
      else listLeB as bs

/-- Code-point lexicographic order on strings. -/
def strLeB (a b : String) : Bool := listLeB a.data b.data

theorem listLeB_total : ∀ as bs : List Char, listLeB as bs = true ∨ listLeB bs as = true := by
  intro as
  induction as with
  | nil => intro bs; left; rfl
  | cons a as ih =>
    intro bs
    cases bs with
    | nil => right; rfl
    | cons b bs =>
      simp only [listLeB]
      rcases Nat.lt_trichotomy a.toNat b.toNat with h | h | h
      · left; simp [h]
      · have hn : ¬ a.toNat < b.toNat := by omega
        have hn2 : ¬ b.toNat < a.toNat := by omega
        rcases ih bs with h2 | h2
        · left; simp [hn, hn2, h2]
        · right; simp [hn, hn2, h2]
      · right; simp [h]

theorem char_eq_of_toNat_eq {a b : Char} (h : a.toNat = b.toNat) : a = b := by
  apply Char.ext
  exact UInt32.ext h

theorem listLeB_antisymm : ∀ as bs : List Char,
    listLeB as bs = true → listLeB bs as = true → as = bs := by
  intro as
  induction as with
  | nil => intro bs h1 h2; cases bs with
    | nil => rfl
    | cons b bs => simp [listLeB] at h2
  | cons a as ih =>
    intro bs h1 h2
    cases bs with
    | nil => simp [listLeB] at h1
    | cons b bs =>
      simp only [listLeB] at h1 h2
      rcases Nat.lt_trichotomy a.toNat b.toNat with h | h | h
      · have hn : ¬ b.toNat < a.toNat := by omega
        simp [h, hn] at h2
      · have hn : ¬ a.toNat < b.toNat := by omega
        have hn2 : ¬ b.toNat < a.toNat := by omega
        simp only [hn, hn2, if_neg, if_false] at h1 h2
        have := ih bs (by simpa using h1) (by simpa using h2)
        rw [char_eq_of_toNat_eq h, this]
      · have hn : ¬ a.toNat < b.toNat := by omega
        simp [h, hn] at h1

theorem listLeB_trans : ∀ as bs cs : List Char,
    listLeB as bs = true → listLeB bs cs = true → listLeB as cs = true := by
  intro as
  induction as with
  | nil => intro bs cs h1 h2; rfl
  | cons a as ih =>
    intro bs cs h1 h2
    cases bs with
    | nil => simp [listLeB] at h1
    | cons b bs =>
      cases cs with
      | nil => simp [listLeB] at h2
      | cons c cs =>
        simp only [listLeB] at h1 h2 ⊢
        by_cases hab : a.toNat < b.toNat <;> by_cases hbc : b.toNat < c.toNat
        · simp [show a.toNat < c.toNat by omega]
        · have hcb : ¬ c.toNat < b.toNat := by
            by_contra hc
            simp [hbc, hc] at h2
          simp [show a.toNat < c.toNat by omega]
        · have hba : ¬ b.toNat < a.toNat := by
            by_contra hc
            simp [hab, hc] at h1
          simp [show a.toNat < c.toNat by omega]
        · have hba : ¬ b.toNat < a.toNat := by
            by_contra hc
            simp [hab, hc] at h1
          have hcb : ¬ c.toNat < b.toNat := by
            by_contra hc
            simp [hbc, hc] at h2
          have hac : ¬ a.toNat < c.toNat := by omega
          have hca : ¬ c.toNat < a.toNat := by omega
          simp only [hac, hca, if_neg, if_false]
          simp only [hab, hba, if_neg, if_false] at h1
          simp only [hbc, hcb, if_neg, if_false] at h2
          exact ih bs cs (by simpa using h1) (by simpa using h2)

/-- A JSON value as produced by Python's `json.load` / consumed by
`json.dump`.  Python distinguishes `int` from `float`; the embedding keeps
the same distinction (`int` for Python ints, `num` for Python floats,
modelled as exact rationals).  Objects are insertion-ordered lists of
key/value pairs, exactly like Python dicts. -/
inductive JsonVal where
  | null
  | bool (b : Bool)
  | int (n : Int)
  | num (q : ℚ)
  | str (s : String)
  | arr (elems : List JsonVal)
  | obj (fields : List (String × JsonVal))

mutual

/-- Structural Boolean equality on JSON values. -/
def JsonVal.beq : JsonVal → JsonVal → Bool
  | .null, .null => true
  | .bool a, .bool b => a == b
  | .int a, .int b => a == b
  | .num a, .num b => a == b
  | .str a, .str b => a == b
  | .arr a, .arr b => JsonVal.beqList a b
  | .obj a, .obj b => JsonVal.beqFields a b
  | _, _ => false

/-- Boolean equality on JSON arrays. -/
def JsonVal.beqList : List JsonVal → List JsonVal → Bool
  | [], [] => true
  | a :: as, b :: bs => JsonVal.beq a b && JsonVal.beqList as bs
  | _, _ => false

/-- Boolean equality on JSON object field lists. -/
def JsonVal.beqFields : List (String × JsonVal) → List (String × JsonVal) → Bool
  | [], [] => true
  | (k, v) :: as, (l, w) :: bs => k == l && JsonVal.beq v w && JsonVal.beqFields as bs
  | _, _ => false

end

mutual

theorem JsonVal.beq_refl : ∀ a : JsonVal, JsonVal.beq a a = true
  | .null => rfl
  | .bool a => by simp [JsonVal.beq]
  | .int a => by simp [JsonVal.beq]
  | .num a => by simp [JsonVal.beq]
  | .str a => by simp [JsonVal.beq]
  | .arr a => by simp only [JsonVal.beq, JsonVal.beqList_refl a]
  | .obj a => by simp only [JsonVal.beq, JsonVal.beqFields_refl a]

theorem JsonVal.beqList_refl : ∀ as : List JsonVal, JsonVal.beqList as as = true
  | [] => rfl
  | a :: as => by simp [JsonVal.beqList, JsonVal.beq_refl a, JsonVal.beqList_refl as]

theorem JsonVal.beqFields_refl : ∀ as : List (String × JsonVal), JsonVal.beqFields as as = true
  | [] => rfl
  | (k, v) :: as => by
      simp [JsonVal.beqFields, JsonVal.beq_refl v, JsonVal.beqFields_refl as]

end

mutual

theorem JsonVal.eq_of_beq : ∀ a b : JsonVal, JsonVal.beq a b = true → a = b
  | .null, .null, _ => rfl
  | .bool a, .bool b, h => by simp [JsonVal.beq] at h; rw [h]
  | .int a, .int b, h => by simp [JsonVal.beq] at h; rw [h]
  | .num a, .num b, h => by simp [JsonVal.beq] at h; rw [h]
  | .str a, .str b, h => by simp [JsonVal.beq] at h; rw [h]
  | .arr a, .arr b, h => by
      rw [JsonVal.eqList_of_beq a b (by simpa [JsonVal.beq] using h)]
  | .obj a, .obj b, h => by
      rw [JsonVal.eqFields_of_beq a b (by simpa [JsonVal.beq] using h)]
  | .null, .bool _, h => by simp [JsonVal.beq] at h
  | .null, .int _, h => by simp [JsonVal.beq] at h
  | .null, .num _, h => by simp [JsonVal.beq] at h
  | .null, .str _, h => by simp [JsonVal.beq] at h
  | .null, .arr _, h => by simp [JsonVal.beq] at h
  | .null, .obj _, h => by simp [JsonVal.beq] at h
  | .bool _, .null, h => by simp [JsonVal.beq] at h
  | .bool _, .int _, h => by simp [JsonVal.beq] at h
  | .bool _, .num _, h => by simp [JsonVal.beq] at h
  | .bool _, .str _, h => by simp [JsonVal.beq] at h
  | .bool _, .arr _, h => by simp [JsonVal.beq] at h
  | .bool _, .obj _, h => by simp [JsonVal.beq] at h
  | .int _, .null, h => by simp [JsonVal.beq] at h
  | .int _, .bool _, h => by simp [JsonVal.beq] at h
  | .int _, .num _, h => by simp [JsonVal.beq] at h
  | .int _, .str _, h => by simp [JsonVal.beq] at h
  | .int _, .arr _, h => by simp [JsonVal.beq] at h
  | .int _, .obj _, h => by simp [JsonVal.beq] at h
  | .num _, .null, h => by simp [JsonVal.beq] at h
  | .num _, .bool _, h => by simp [JsonVal.beq] at h
  | .num _, .int _, h => by simp [JsonVal.beq] at h
  | .num _, .str _, h => by simp [JsonVal.beq] at h
  | .num _, .arr _, h => by simp [JsonVal.beq] at h
  | .num _, .obj _, h => by simp [JsonVal.beq] at h
  | .str _, .null, h => by simp [JsonVal.beq] at h
  | .str _, .bool _, h => by simp [JsonVal.beq] at h
  | .str _, .int _, h => by simp [JsonVal.beq] at h
  | .str _, .num _, h => by simp [JsonVal.beq] at h
  | .str _, .arr _, h => by simp [JsonVal.beq] at h
  | .str _, .obj _, h => by simp [JsonVal.beq] at h
  | .arr _, .null, h => by simp [JsonVal.beq] at h
  | .arr _, .bool _, h => by simp [JsonVal.beq] at h
  | .arr _, .int _, h => by simp [JsonVal.beq] at h
  | .arr _, .num _, h => by simp [JsonVal.beq] at h
  | .arr _, .str _, h => by simp [JsonVal.beq] at h
  | .arr _, .obj _, h => by simp [JsonVal.beq] at h
  | .obj _, .null, h => by simp [JsonVal.beq] at h
  | .obj _, .bool _, h => by simp [JsonVal.beq] at h
  | .obj _, .int _, h => by simp [JsonVal.beq] at h
  | .obj _, .num _, h => by simp [JsonVal.beq] at h
  | .obj _, .str _, h => by simp [JsonVal.beq] at h
  | .obj _, .arr _, h => by simp [JsonVal.beq] at h

theorem JsonVal.eqList_of_beq : ∀ as bs : List JsonVal, JsonVal.beqList as bs = true → as = bs
  | [], [], _ => rfl
  | [], _ :: _, h => by simp [JsonVal.beqList] at h
  | _ :: _, [], h => by simp [JsonVal.beqList] at h
  | a :: as, b :: bs, h => by
      simp only [JsonVal.beqList, Bool.and_eq_true] at h
      rw [JsonVal.eq_of_beq a b h.1, JsonVal.eqList_of_beq as bs h.2]

theorem JsonVal.eqFields_of_beq :
    ∀ as bs : List (String × JsonVal), JsonVal.beqFields as bs = true → as = bs
  | [], [], _ => rfl
  | [], _ :: _, h => by simp [JsonVal.beqFields] at h
  | _ :: _, [], h => by simp [JsonVal.beqFields] at h
  | (k, v) :: as, (l, w) :: bs, h => by
      simp only [JsonVal.beqFields, Bool.and_eq_true] at h
      have hk : k = l := by simpa using h.1.1
      rw [hk, JsonVal.eq_of_beq v w h.1.2, JsonVal.eqFields_of_beq as bs h.2]

end

instance : DecidableEq JsonVal := fun a b =>
  if h : JsonVal.beq a b = true then .isTrue (JsonVal.eq_of_beq a b h)
  else .isFalse (fun he => h (he ▸ JsonVal.beq_refl a))

/-- Python truthiness (`if x:`) on JSON-shaped values: `None`, `False`, zero,
the empty string, the empty list and the empty dict are falsy. -/
def pyTruthy : JsonVal → Bool
  | .null => false
  | .bool b => b
  | .int n => n != 0
  | .num q => q != 0
  | .str s => s != ""
  | .arr elems => !elems.isEmpty
  | .obj fields => !fields.isEmpty

/-- Key-ordering relation used to model `json.dumps(..., sort_keys=True)`:
serialized object entries are compared by key in code-point order. -/
def keyLE {α : Type} (a b : String × α) : Prop := strLeB a.1 b.1 = true

instance {α : Type} : DecidableRel (keyLE (α := α)) :=
  fun a b => inferInstanceAs (Decidable (strLeB a.1 b.1 = true))

instance {α : Type} : IsTotal (String × α) keyLE :=
  ⟨fun a b => listLeB_total a.1.data b.1.data⟩

instance {α : Type} : IsTrans (String × α) keyLE :=
  ⟨fun a b c h h2 => listLeB_trans a.1.data b.1.data c.1.data h h2⟩

/-- Sort the serialized fields of a JSON object by key, as
`json.dumps(..., sort_keys=True)` does. -/
def sortByKey (l : List (String × String)) : List (String × String) :=
  l.insertionSort keyLE

mutual

/-- Executable stand-in for Python's `json.dumps(v, sort_keys=True)`.
It is faithful in the one respect the cache relies on: object keys are sorted
(at every nesting level) before serialization, so the output is independent of
dict insertion order.  The textual details (string escaping, float
formatting) differ from CPython's; no theorem below depends on them, since
the digest consuming this string is itself a deterministic stand-in. -/
def dumps : JsonVal → String
  | .null => "null"
  | .bool true => "true"
  | .bool false => "false"
  | .int n => toString n
  | .num q => toString q.num ++ "/" ++ toString q.den
  | .str s => "\"" ++ s ++ "\""
  | .arr elems => "[" ++ String.intercalate (", ") (dumpsList elems) ++ "]"
  | .obj fields =>
      "\x7b" ++
        String.intercalate (", ")
          ((sortByKey (dumpsFields fields)).map
            (fun p => "\"" ++ p.1 ++ "\": " ++ p.2)) ++
      "\x7d"

/-- Serialize each element of a JSON array, in order. -/
def dumpsList : List JsonVal → List String
  | [] => []
  | v :: rest => dumps v :: dumpsList rest

/-- Serialize the value of each field of a JSON object, keeping the key. -/
def dumpsFields : List (String × JsonVal) → List (String × String)
  | [] => []
  | (k, v) :: rest => (k, dumps v) :: dumpsFields rest

end

/-- Executable deterministic stand-in for
`hashlib.sha256(s.encode()).hexdigest()`.  The real SHA-256 is an external
library primitive; every theorem below uses only that equal inputs produce
equal digests, which holds for any function, so a cheap executable hex digest
is substituted. -/
def sha256Hex (s : String) : String :=
  String.mk (Nat.toDigits 16
    (s.data.foldl (fun a c => (a * 131 + c.toNat) % 4294967296) 5381))

/-- The four parameter names bound positionally by
`LLMCache._compute_cache_key`; Python's calling convention guarantees that
the `**kwargs` dict never contains these names. -/
def fixedParamNames : List String := ["provider", "model", "prompt", "temperature"]

/-- The JSON value Python serializes for an `Optional[float]` parameter. -/
def optNumToJson : Option ℚ → JsonVal
  | none => .null
  | some q => .num q

/-- The JSON value Python serializes for an `Optional[int]` parameter. -/
def optIntToJson : Option Int → JsonVal
  | none => .null
  | some n => .int n

/-- Embedding of `LLMCache._compute_cache_key` (llm_cache.py:108-141): build
the params dict from `provider`, `model`, `prompt`, `temperature` and the
extra keyword arguments in insertion order, serialize it with
`json.dumps(params, sort_keys=True)`, and return the hex digest of the
result. -/
def computeCacheKey (provider model prompt : String) (temperature : Option ℚ)
    (kwargs : List (String × JsonVal)) : String :=
  let params : List (String × JsonVal) :=
    [("provider", .str provider), ("model", .str model), ("prompt", .str prompt),
     ("temperature", optNumToJson temperature)] ++ kwargs
  sha256Hex (dumps (.obj params))

/-- Embedding of `LLMCache._compute_prompt_hash` (llm_cache.py:143-152):
digest of the prompt text alone, truncated to 16 hex characters.  Carried in
entries for diagnostics only. -/
def computePromptHash (prompt : String) : String :=
  (sha256Hex prompt).take 16

/-- Executable form of the comparison `t < a - b` on rationals, written with
integer cross-multiplication so that it computes inside the kernel (the
normalizing `Rat` subtraction does not).  `ratLtSub_iff` proves it equal to
the textbook comparison. -/
def ratLtSub (t a b : ℚ) : Bool :=
  decide ((t.num * (b.den : Int) + (t.den : Int) * b.num) * (a.den : Int) <
    a.num * ((t.den : Int) * (b.den : Int)))

theorem ratLtSub_iff (t a b : ℚ) : ratLtSub t a b = true ↔ t < a - b := by
  unfold ratLtSub
  rw [decide_eq_true_iff]
  rw [lt_sub_iff_add_lt]
  have htd : ((t.den : ℚ)) ≠ 0 := by exact_mod_cast t.den_nz
  have hbd : ((b.den : ℚ)) ≠ 0 := by exact_mod_cast b.den_nz
  have had : (0 : ℚ) < (a.den : ℚ) := by exact_mod_cast a.pos
  have hpos : (0 : ℚ) < (t.den : ℚ) * (b.den : ℚ) := by
    have h1 : (0 : ℚ) < (t.den : ℚ) := by exact_mod_cast t.pos
    have h2 : (0 : ℚ) < (b.den : ℚ) := by exact_mod_cast b.pos
    positivity
  conv_rhs => rw [← Rat.num_div_den t, ← Rat.num_div_den b, ← Rat.num_div_den a]
  rw [div_add_div _ _ htd hbd, div_lt_div_iff₀ hpos had]
  norm_cast

theorem ratLtSub_eq_false (t a b : ℚ) : ratLtSub t a b = false ↔ a - b ≤ t := by
  rw [← Bool.not_eq_true, ratLtSub_iff, not_lt]

/-- Embedding of the `CacheEntry` dataclass (llm_cache.py:27-71), with the
field types the cache itself writes: `created_at`/`accessed_at` are
`time.time()` floats (modelled as exact rationals), `access_count` and
`ttl_seconds` are ints, and `response`/`request_metadata` are opaque JSON
values the cache never interprets. -/
structure CacheEntry where
  response : JsonVal
  cache_key : String
  provider : String
  model : String
  prompt_hash : String
  created_at : ℚ
  accessed_at : ℚ
  access_count : Int
  ttl_seconds : Option Int
  request_metadata : JsonVal
deriving DecidableEq

/-- Embedding of `CacheEntry.is_expired` (llm_cache.py:51-57): entries with
no TTL never expire; otherwise the entry is expired when its age measured
from `created_at` strictly exceeds the TTL. -/
def CacheEntry.is_expired (e : CacheEntry) (now : ℚ) : Bool :=
  match e.ttl_seconds with
  | none => false
  | some t => ratLtSub (t : ℚ) now e.created_at

/-- Embedding of `CacheEntry.update_access` (llm_cache.py:59-62). -/
def CacheEntry.update_access (e : CacheEntry) (now : ℚ) : CacheEntry :=
  { e with accessed_at := now, access_count := e.access_count + 1 }

/-- Embedding of `CacheEntry.to_dict` (llm_cache.py:64-66): `asdict` lists
the fields in declaration order. -/
def CacheEntry.to_dict (e : CacheEntry) : JsonVal :=
  .obj [("response", e.response),
        ("cache_key", .str e.cache_key),
        ("provider", .str e.provider),
        ("model", .str e.model),
        ("prompt_hash", .str e.prompt_hash),
        ("created_at", .num e.created_at),
        ("accessed_at", .num e.accessed_at),
        ("access_count", .int e.access_count),
        ("ttl_seconds", optIntToJson e.ttl_seconds),
        ("request_metadata", e.request_metadata)]

/-- The ten dataclass field names of `CacheEntry`, in declaration order. -/
def entryFieldNames : List String :=
  ["response", "cache_key", "provider", "model", "prompt_hash",
   "created_at", "accessed_at", "access_count", "ttl_seconds", "request_metadata"]

/-- Embedding of `CacheEntry.from_dict` (llm_cache.py:68-71), which is
`cls(**data)`: it succeeds exactly when `data` is a dict whose key set is
exactly the ten dataclass fields; any other shape raises `TypeError`,
modelled as `none`.  `cls(**data)` itself performs no type validation; this
embedding additionally requires each field to carry the type the cache
writes and reads, folding into `none` the `TypeError`s Python would raise at
the field's first typed use. -/
def CacheEntry.from_dict (v : JsonVal) : Option CacheEntry :=
  match v with
  | .obj fs =>
      if (fs.map Prod.fst).isPerm entryFieldNames then
        match fs.lookup ("response"), fs.lookup ("cache_key"), fs.lookup ("provider"),
              fs.lookup ("model"), fs.lookup ("prompt_hash"), fs.lookup ("created_at"),
              fs.lookup ("accessed_at"), fs.lookup ("access_count"),
              fs.lookup ("ttl_seconds"), fs.lookup ("request_metadata") with
        | some resp, some (.str ck), some (.str pv), some (.str md), some (.str ph),
          some (.num ca), some (.num aa), some (.int ac), some tl, some rm =>
            match tl with
            | .null => some ⟨resp, ck, pv, md, ph, ca, aa, ac, none, rm⟩
            | .int t => some ⟨resp, ck, pv, md, ph, ca, aa, ac, some t, rm⟩
            | _ => none
        | _, _, _, _, _, _, _, _, _, _ => none
      else none
  | _ => none

theorem from_dict_to_dict (e : CacheEntry) : CacheEntry.from_dict e.to_dict = some e := by
  rcases e with ⟨resp, ck, pv, md, ph, ca, aa, ac, tl, rm⟩
  cases tl <;> rfl

/-- A persisted cache file: either text that parses as JSON, or text on
which `json.load` raises `JSONDecodeError`. -/
inductive FileContent where
  | json (v : JsonVal)
  | notJson
deriving DecidableEq

/-- The `llm_responses` directory of one project, as an association list
from cache key (the file's base name) to file content.  File-system byte
sizes and I/O failures are not modelled. -/
abbrev Store := List (String × FileContent)

/-- Look up the file stored under a cache key (`cache_path.exists()` plus
`open`/`json.load`). -/
def Store.find (st : Store) (k : String) : Option FileContent :=
  List.lookup k st

/-- Delete the file stored under a cache key (`cache_path.unlink()`). -/
def Store.erase (st : Store) (k : String) : Store :=
  st.filter (fun p => p.1 != k)

/-- Overwrite (or create) the file stored under a cache key
(`open(cache_path, "w")` followed by `json.dump`). -/
def Store.write (st : Store) (k : String) (c : FileContent) : Store :=
  (k, c) :: Store.erase st k

theorem Store.find_write_self (st : Store) (k : String) (c : FileContent) :
    Store.find (Store.write st k c) k = some c := by
  simp [Store.find, Store.write, List.lookup]

/-- Python exceptions that the embedded code can let escape. -/
inductive PyErr where
  | typeError
  | keyError
deriving DecidableEq

instance {ε α : Type} [DecidableEq ε] [DecidableEq α] : DecidableEq (Except ε α) := fun x y =>
  match x, y with
  | .ok a, .ok b =>
      if h : a = b then .isTrue (by rw [h])
      else .isFalse (by intro he; cases he; exact h rfl)
  | .error a, .error b =>
      if h : a = b then .isTrue (by rw [h])
      else .isFalse (by intro he; cases he; exact h rfl)
  | .ok _, .error _ => .isFalse (by intro he; cases he)
  | .error _, .ok _ => .isFalse (by intro he; cases he)

/-- Embedding of `LLMCache.__init__`'s cache-wide state (llm_cache.py:84-101):
only the resolved default TTL matters to the embedded operations; the
directory paths are carried by `Store` itself. -/
structure LLMCache where
  ttl_seconds : Int
deriving DecidableEq

/-- `LLMCache.DEFAULT_TTL_SECONDS = 30 * 24 * 60 * 60` (llm_cache.py:78). -/
def LLMCache.DEFAULT_TTL_SECONDS : Int := 30 * 24 * 60 * 60

/-- Python's `x or d` for `x : Optional[int]`: falls back to `d` when `x`
is `None` and also when `x` is `0`, since `0` is falsy. -/
def pyOrInt : Option Int → Int → Int
  | none, d => d
  | some t, d => if t = 0 then d else t

/-- Embedding of `LLMCache.__init__` (llm_cache.py:84-92):
`self.ttl_seconds = ttl_seconds or self.DEFAULT_TTL_SECONDS`. -/
def LLMCache.init (ttl_seconds : Option Int) : LLMCache :=
  ⟨pyOrInt ttl_seconds LLMCache.DEFAULT_TTL_SECONDS⟩

/-- The `CacheEntry` constructed by `LLMCache.set` (llm_cache.py:247-261):
`created_at = accessed_at = time.time()`, `access_count = 1`,
`ttl_seconds = ttl_seconds or self.ttl_seconds`, and the request metadata
dict `temperature` plus the extra keyword arguments. -/
def LLMCache.setEntry (c : LLMCache) (now : ℚ) (provider model prompt : String)
    (response : JsonVal) (temperature : Option ℚ) (ttl_seconds : Option Int)
    (kwargs : List (String × JsonVal)) : CacheEntry :=
  { response := response
    cache_key := computeCacheKey provider model prompt temperature kwargs
    provider := provider
    model := model
    prompt_hash := computePromptHash prompt
    created_at := now
    accessed_at := now
    access_count := 1
    ttl_seconds := some (pyOrInt ttl_seconds c.ttl_seconds)
    request_metadata := .obj (("temperature", optNumToJson temperature) :: kwargs) }

/-- Embedding of `LLMCache.set` (llm_cache.py:218-267): derive the key,
build the entry, persist it overwriting any file at that key, and return
the key. -/
def LLMCache.set (c : LLMCache) (st : Store) (now : ℚ) (provider model prompt : String)
    (response : JsonVal) (temperature : Option ℚ) (ttl_seconds : Option Int)
    (kwargs : List (String × JsonVal)) : String × Store :=
  let cache_key := computeCacheKey provider model prompt temperature kwargs
  (cache_key,
   Store.write st cache_key
     (.json (c.setEntry now provider model prompt response temperature ttl_seconds kwargs).to_dict))

/-- Embedding of `LLMCache.get` (llm_cache.py:165-216).  A missing file is a
miss; a file that fails JSON decoding is caught by the
`except (json.JSONDecodeError, KeyError, IOError)` clause, deleted and
reported as a miss; a file whose JSON does not parse into a `CacheEntry`
raises `TypeError` from `cls(**data)`, which that clause does NOT catch, so
the exception escapes and the file survives; an expired entry is deleted and
reported as a miss; otherwise the access metadata is updated, persisted, and
the stored response returned.  `LLMCache.get` reads no instance state, so it
takes no `LLMCache` argument. -/
def LLMCache.getParsed (st : Store) (now : ℚ) (cache_key : String) :
    Option CacheEntry → Except PyErr (Option JsonVal) × Store
  | none => (.error .typeError, st)
  | some entry =>
      if entry.is_expired now then
        (.ok none, Store.erase st cache_key)
      else
        (.ok (some (entry.update_access now).response),
         Store.write st cache_key (.json (entry.update_access now).to_dict))

def LLMCache.getContent (st : Store) (now : ℚ) (cache_key : String) :
    Option FileContent → Except PyErr (Option JsonVal) × Store
  | none => (.ok none, st)
  | some .notJson => (.ok none, Store.erase st cache_key)
  | some (.json data) => LLMCache.getParsed st now cache_key (CacheEntry.from_dict data)

def LLMCache.getAux (st : Store) (now : ℚ) (cache_key : String) :
    Except PyErr (Option JsonVal) × Store :=
  LLMCache.getContent st now cache_key (Store.find st cache_key)

/-- Embedding of `LLMCache.get`, continued: derive the key, then run the
lookup body `LLMCache.getAux` on it. -/
def LLMCache.get (st : Store) (now : ℚ) (provider model prompt : String)
    (temperature : Option ℚ) (kwargs : List (String × JsonVal)) :
    Except PyErr (Option JsonVal) × Store :=
  LLMCache.getAux st now (computeCacheKey provider model prompt temperature kwargs)

theorem LLMCache.getAux_find_none {st : Store} {now : ℚ} {k : String}
    (hfind : Store.find st k = none) :
    LLMCache.getAux st now k = (.ok none, st) := by
  unfold LLMCache.getAux
  rw [hfind]
  rfl

theorem LLMCache.getAux_find_notJson {st : Store} {now : ℚ} {k : String}
    (hfind : Store.find st k = some .notJson) :
    LLMCache.getAux st now k = (.ok none, Store.erase st k) := by
  unfold LLMCache.getAux
  rw [hfind]
  rfl

theorem LLMCache.getAux_find_badShape {st : Store} {now : ℚ} {k : String} {v : JsonVal}
    (hfind : Store.find st k = some (.json v)) (hparse : CacheEntry.from_dict v = none) :
    LLMCache.getAux st now k = (.error .typeError, st) := by
  unfold LLMCache.getAux
  rw [hfind]
  show LLMCache.getParsed st now k (CacheEntry.from_dict v) = _
  rw [hparse]
  rfl

theorem LLMCache.getAux_find_entry {st : Store} {now : ℚ} {k : String} {e : CacheEntry}
    (hfind : Store.find st k = some (.json e.to_dict)) :
    LLMCache.getAux st now k =
      if e.is_expired now then (.ok none, Store.erase st k)
      else (.ok (some (e.update_access now).response),
            Store.write st k (.json (e.update_access now).to_dict)) := by
  unfold LLMCache.getAux
  rw [hfind]
  show LLMCache.getParsed st now k (CacheEntry.from_dict e.to_dict) = _
  rw [from_dict_to_dict]
  rfl

/-- Embedding of `LLMCache.invalidate` (llm_cache.py:269-282). -/
def LLMCache.invalidate (st : Store) (cache_key : String) : Bool × Store :=
  match Store.find st cache_key with
  | some _ => (true, Store.erase st cache_key)
  | none => (false, st)

/-- Embedding of `LLMCache.clear_all` (llm_cache.py:284-294): delete every
file and return the number deleted. -/
def LLMCache.clear_all (st : Store) : Int × Store :=
  ((st.length : Int), [])

/-- One step of the `LLMCache.clear_expired` loop (llm_cache.py:296-318) on
a single file: `True` means the file is deleted and counted.  The loop's
`except` clause catches only `JSONDecodeError`/`KeyError`/`IOError`; a JSON
file that does not parse into a `CacheEntry` raises `TypeError` out of the
whole scan, modelled as `none`. -/
def clearExpiredStep (now : ℚ) : FileContent → Option Bool
  | .notJson => some true
  | .json data =>
      match CacheEntry.from_dict data with
      | none => none
      | some entry => some (entry.is_expired now)

/-- Embedding of `LLMCache.clear_expired` (llm_cache.py:296-318). -/
def LLMCache.clear_expired (st : Store) (now : ℚ) : Except PyErr (Int × Store) :=
  match st with
  | [] => .ok (0, [])
  | (k, c) :: rest =>
      match clearExpiredStep now c with
      | none => .error .typeError
      | some del =>
          match LLMCache.clear_expired rest now with
          | .error e => .error e
          | .ok (n, rest2) =>
              if del then .ok (n + 1, rest2) else .ok (n, (k, c) :: rest2)

/-- The dictionary returned by `LLMCache.get_stats` (llm_cache.py:357-367),
without the two byte-size fields, which depend on file-system metadata that
the store does not model. -/
structure CacheStats where
  total_entries : Int
  expired_entries : Int
  active_entries : Int
  total_accesses : Int
  avg_accesses_per_entry : ℚ
  oldest_entry_age_days : ℚ
  newest_entry_age_days : ℚ
deriving DecidableEq

/-- Accumulator of the `get_stats` scan loop (llm_cache.py:326-355). -/
structure StatsAcc where
  total_entries : Int := 0
  expired_entries : Int := 0
  total_accesses : Int := 0
  oldest_entry : Option ℚ := none
  newest_entry : Option ℚ := none
deriving DecidableEq

/-- One iteration of the `get_stats` loop on a single file.  As in
`clear_expired`, a JSON file that does not parse into a `CacheEntry` raises
`TypeError`, which the loop's `except ... : pass` clause does not catch. -/
def statsStep (now : ℚ) (acc : StatsAcc) : FileContent → Option StatsAcc
  | .notJson => some acc
  | .json data =>
      match CacheEntry.from_dict data with
      | none => none
      | some entry =>
          some { total_entries := acc.total_entries + 1
                 expired_entries :=
                   acc.expired_entries + (if entry.is_expired now then 1 else 0)
                 total_accesses := acc.total_accesses + entry.access_count
                 oldest_entry :=
                   match acc.oldest_entry with
                   | none => some entry.created_at
                   | some o => if entry.created_at < o then some entry.created_at else some o
                 newest_entry :=
                   match acc.newest_entry with
                   | none => some entry.created_at
                   | some o => if entry.created_at > o then some entry.created_at else some o }

/-- The `get_stats` scan over every file of the namespace. -/
def statsLoop (now : ℚ) : Store → StatsAcc → Option StatsAcc
  | [], acc => some acc
  | (_, c) :: rest, acc =>
      match statsStep now acc c with
      | none => none
      | some acc2 => statsLoop now rest acc2

/-- Stand-in for Python's `round(q, 2)`.  CPython rounds floats half to
even; this model rounds half away from zero via `round` on rationals.  No
theorem below depends on the tie-breaking rule. -/
def pyRound2 (q : ℚ) : ℚ := ((round (q * 100) : ℤ) : ℚ) / 100

/-- Stand-in for Python's `round(q, 1)`, as `pyRound2`. -/
def pyRound1 (q : ℚ) : ℚ := ((round (q * 10) : ℤ) : ℚ) / 10

/-- The `oldest_entry_age_days` / `newest_entry_age_days` expression of
`get_stats`: `round((time.time() - t) / 86400, 1) if t else 0`.  Note the
truthiness test: a tracked timestamp of exactly `0` also yields `0`. -/
def ageDays (now : ℚ) : Option ℚ → ℚ
  | none => 0
  | some t => if t = 0 then 0 else pyRound1 ((now - t) / 86400)

/-- Embedding of `LLMCache.get_stats` (llm_cache.py:320-367), minus the two
byte-size fields.  `none` models the uncaught `TypeError` escaping the scan
when some JSON file does not parse into a `CacheEntry`. -/
def LLMCache.get_stats (st : Store) (now : ℚ) : Option CacheStats :=
  match statsLoop now st {} with
  | none => none
  | some a =>
      some { total_entries := a.total_entries
             expired_entries := a.expired_entries
             active_entries := a.total_entries - a.expired_entries
             total_accesses := a.total_accesses
             avg_accesses_per_entry :=
               if a.total_entries > 0 then
                 pyRound2 ((a.total_accesses : ℚ) / (a.total_entries : ℚ))
               else 0
             oldest_entry_age_days := ageDays now a.oldest_entry
             newest_entry_age_days := ageDays now a.newest_entry }

/-- Modelled from the spec: the request object of the gateway contract
(spec section 8) carries an ordered list of role-tagged messages plus
`temperature` and `max_tokens`.  The concrete `PromptBundle` class lives
outside the cache core. -/
structure PromptBundle where
  messages : List (String × String)
  temperature : Option ℚ
  max_tokens : Option Int
deriving DecidableEq

/-- Modelled from the spec: `bundle.to_openai_format()` serializes the
ordered role-tagged messages in the standard role/content object-list
shape.  Only its determinism matters below. -/
def PromptBundle.to_openai_format (b : PromptBundle) : JsonVal :=
  .arr (b.messages.map
    (fun m => .obj [("role", .str m.1), ("content", .str m.2)]))

/-- Embedding of `CachedLLMGateway._prompt_bundle_to_string`
(cached_gateway.py:71-88): the canonical prompt string is the sorted-keys
JSON serialization of the messages, temperature and max-token budget. -/
def prompt_bundle_to_string (b : PromptBundle) : String :=
  dumps (.obj [("messages", b.to_openai_format),
               ("temperature", optNumToJson b.temperature),
               ("max_tokens", optIntToJson b.max_tokens)])

/-- Modelled from the spec: the token-usage breakdown
`(prompt_tokens, completion_tokens, total_tokens)` of a gateway response,
with safe zero defaults.  Fields are JSON values because the Python class
performs no type validation. -/
structure TokenUsage where
  prompt_tokens : JsonVal := .int 0
  completion_tokens : JsonVal := .int 0
  total_tokens : JsonVal := .int 0
deriving DecidableEq

/-- Modelled from the spec: a gateway response carries `content`,
`provider`, `model`, an optional raw provider payload, a latency
measurement, and a token-usage breakdown.  The concrete `LLMResponse` class
lives outside the cache core; fields are JSON values because Python performs
no type validation. -/
structure LLMResponse where
  content : JsonVal
  provider : JsonVal
  model : JsonVal
  raw_response : JsonVal
  latency_ms : JsonVal
  usage : TokenUsage
deriving DecidableEq

/-- Embedding of `CachedLLMGateway._llm_response_to_dict`
(cached_gateway.py:90-110). -/
def llm_response_to_dict (r : LLMResponse) : JsonVal :=
  .obj [("content", r.content),
        ("provider", r.provider),
        ("model", r.model),
        ("raw_response", r.raw_response),
        ("latency_ms", r.latency_ms),
        ("usage", .obj [("prompt_tokens", r.usage.prompt_tokens),
                        ("completion_tokens", r.usage.completion_tokens),
                        ("total_tokens", r.usage.total_tokens)])]

/-- The three keyword parameters accepted by `TokenUsage.__init__`. -/
def usageFieldNames : List String :=
  ["prompt_tokens", "completion_tokens", "total_tokens"]

/-- Modelled from the spec: `TokenUsage(**d)` accepts any subset of its
three fields, defaulting the rest to zero; an unexpected keyword raises
`TypeError`. -/
def TokenUsage.fromKwargs (fs : List (String × JsonVal)) : Except PyErr TokenUsage :=
  if ((fs.map Prod.fst).all (fun k => usageFieldNames.contains k)) ∧
      (fs.map Prod.fst).Nodup then
    .ok { prompt_tokens := (fs.lookup ("prompt_tokens")).getD (.int 0)
          completion_tokens := (fs.lookup ("completion_tokens")).getD (.int 0)
          total_tokens := (fs.lookup ("total_tokens")).getD (.int 0) }
  else .error .typeError

/-- Embedding of `CachedLLMGateway._dict_to_llm_response`
(cached_gateway.py:112-130): `TokenUsage(**data["usage"]) if
data.get("usage") else TokenUsage()`, then field accesses `data["content"]`,
`data["provider"]`, `data["model"]` (raising `KeyError` when absent) and
defaulted reads of `raw_response` and `latency_ms`.  Indexing a non-dict
payload raises `TypeError`. -/
def dict_to_llm_response (data : JsonVal) : Except PyErr LLMResponse :=
  match data with
  | .obj fs =>
      match
        (if pyTruthy ((fs.lookup ("usage")).getD .null) then
           match (fs.lookup ("usage")).getD .null with
           | .obj ufs => TokenUsage.fromKwargs ufs
           | _ => .error .typeError
         else .ok {}) with
      | .error e => .error e
      | .ok usage =>
          match fs.lookup ("content") with
          | none => .error .keyError
          | some content =>
              match fs.lookup ("provider") with
              | none => .error .keyError
              | some pv =>
                  match fs.lookup ("model") with
                  | none => .error .keyError
                  | some md =>
                      .ok { content := content
                            provider := pv
                            model := md
                            raw_response := (fs.lookup ("raw_response")).getD .null
                            latency_ms := (fs.lookup ("latency_ms")).getD (.int 0)
                            usage := usage }
  | _ => .error .typeError

/-- Embedding of `CachedLLMGateway.__init__` state (cached_gateway.py:36-59):
the wrapped gateway's identity accessors, the enable flag, and the
project-scoped cache store obtained from `get_cache(project_id, ttl_seconds)`.
The process-wide registry itself is not modelled. -/
structure CachedLLMGateway where
  provider : String
  model : String
  enable_cache : Bool
  cache : LLMCache
deriving DecidableEq

/-- An exception escaping `CachedLLMGateway.call`: either the wrapped
gateway's own error, propagated unmodified, or a Python error from the cache
layer. -/
inductive CallErr (ε : Type) where
  | gw (e : ε)
  | py (e : PyErr)
deriving DecidableEq

/-- The extra keyword arguments `CachedLLMGateway.call` passes to the cache:
`max_tokens=bundle.max_tokens` (cached_gateway.py:148-154, 173-180). -/
def CachedLLMGateway.callKwargs (b : PromptBundle) : List (String × JsonVal) :=
  [("max_tokens", optIntToJson b.max_tokens)]

/-- The fall-through of `CachedLLMGateway.call` after a cache miss
(cached_gateway.py:163-186): call the wrapped gateway; on failure the
exception propagates and nothing is written; on success the response is
converted, stored via `LLMCache.set` with no TTL override, and the fresh
response is returned. -/
def CachedLLMGateway.missPath {ε : Type} (g : CachedLLMGateway)
    (gwCall : PromptBundle → Except ε LLMResponse) (st1 : Store) (now : ℚ)
    (b : PromptBundle) (prompt_str : String) :
    Except (CallErr ε) LLMResponse × Store :=
  match gwCall b with
  | .error e => (.error (.gw e), st1)
  | .ok response =>
      (.ok response,
       (LLMCache.set g.cache st1 now g.provider g.model prompt_str
         (llm_response_to_dict response) b.temperature none
         (CachedLLMGateway.callKwargs b)).2)

/-- Embedding of `CachedLLMGateway.call` (cached_gateway.py:132-186).  When
caching is disabled it delegates unconditionally.  Otherwise it canonicalizes
the bundle, consults the cache, and takes the hit branch only when the cached
payload is truthy (`if cached_response:`), reconstructing a response from it;
any falsy payload — `None` on a miss, but also an empty stored dict — falls
through to the miss path. -/
def CachedLLMGateway.call {ε : Type} (g : CachedLLMGateway)
    (gwCall : PromptBundle → Except ε LLMResponse) (st : Store) (now : ℚ)
    (b : PromptBundle) : Except (CallErr ε) LLMResponse × Store :=
  if g.enable_cache = false then
    match gwCall b with
    | .ok r => (.ok r, st)
    | .error e => (.error (.gw e), st)
  else
    match LLMCache.get st now g.provider g.model (prompt_bundle_to_string b)
        b.temperature (CachedLLMGateway.callKwargs b) with
    | (.error e, st1) => (.error (.py e), st1)
    | (.ok cached, st1) =>
        match cached with
        | some v =>
            if pyTruthy v then
              match dict_to_llm_response v with
              | .ok r => (.ok r, st1)
              | .error e => (.error (.py e), st1)
            else g.missPath gwCall st1 now b (prompt_bundle_to_string b)
        | none => g.missPath gwCall st1 now b (prompt_bundle_to_string b)

/-- The re-yield loop of `CachedLLMGateway.stream`
(cached_gateway.py:204-205): `async for chunk in self._gateway.stream(bundle):
yield chunk`, on the chunk sequence as a list. -/
def reyieldChunks : List LLMResponse → List LLMResponse
  | [] => []
  | c :: rest => c :: reyieldChunks rest

/-- Embedding of `CachedLLMGateway.stream` (cached_gateway.py:188-205): the
body re-yields the wrapped gateway's chunks and contains no cache
operation, so the store passes through untouched. -/
def CachedLLMGateway.stream (g : CachedLLMGateway)
    (gwStream : PromptBundle → List LLMResponse) (st : Store)
    (b : PromptBundle) : List LLMResponse × Store :=
  (reyieldChunks (gwStream b), st)

theorem str_eq_of_strLeB {a b : String} (h1 : strLeB a b = true) (h2 : strLeB b a = true) :
    a = b := by
  cases a
  cases b
  exact congrArg String.mk (listLeB_antisymm _ _ h1 h2)

/-- Strict key order: used only to transport sortedness between the two
serializations of a permuted parameter dict. -/
def keyLT {α : Type} (a b : String × α) : Prop := keyLE a b ∧ a.1 ≠ b.1

instance {α : Type} : IsAntisymm (String × α) keyLT :=
  ⟨fun _ _ h1 h2 => absurd (str_eq_of_strLeB h1.1 h2.1) h1.2⟩

theorem sorted_keyLT_of_keyLE {l : List (String × String)} (hs : l.Sorted keyLE)
    (hnd : (l.map Prod.fst).Nodup) : l.Sorted keyLT := by
  have h2 : l.Pairwise (fun a b => a.1 ≠ b.1) := List.pairwise_map.mp hnd
  exact (hs.and h2).imp (fun h => ⟨h.1, h.2⟩)

theorem sortByKey_eq_of_perm {l1 l2 : List (String × String)} (hp : l1.Perm l2)
    (hnd : (l1.map Prod.fst).Nodup) : sortByKey l1 = sortByKey l2 := by
  have hperm : (sortByKey l1).Perm (sortByKey l2) :=
    (List.perm_insertionSort keyLE l1).trans
      (hp.trans (List.perm_insertionSort keyLE l2).symm)
  have hnd1 : ((sortByKey l1).map Prod.fst).Nodup :=
    (((List.perm_insertionSort keyLE l1).map Prod.fst).nodup_iff).mpr hnd
  have hnd2 : ((sortByKey l2).map Prod.fst).Nodup :=
    (((List.perm_insertionSort keyLE l2).map Prod.fst).nodup_iff).mpr
      (((hp.map Prod.fst).nodup_iff).mp hnd)
  exact List.eq_of_perm_of_sorted hperm
    (sorted_keyLT_of_keyLE (List.sorted_insertionSort keyLE l1) hnd1)
    (sorted_keyLT_of_keyLE (List.sorted_insertionSort keyLE l2) hnd2)

theorem dumpsFields_eq_map :
    ∀ l : List (String × JsonVal), dumpsFields l = l.map (fun p => (p.1, dumps p.2))
  | [] => rfl
  | (k, v) :: rest => by simp [dumpsFields, dumpsFields_eq_map rest]

theorem map_fst_dumpsFields (l : List (String × JsonVal)) :
    (dumpsFields l).map Prod.fst = l.map Prod.fst := by
  rw [dumpsFields_eq_map, List.map_map]
  rfl

theorem dumps_obj_eq_of_perm {fs1 fs2 : List (String × JsonVal)} (hp : fs1.Perm fs2)
    (hnd : (fs1.map Prod.fst).Nodup) : dumps (.obj fs1) = dumps (.obj fs2) := by
  have h : sortByKey (dumpsFields fs1) = sortByKey (dumpsFields fs2) := by
    apply sortByKey_eq_of_perm
    · rw [dumpsFields_eq_map, dumpsFields_eq_map]
      exact hp.map _
    · rw [map_fst_dumpsFields]
      exact hnd
  simp only [dumps]
  rw [h]

/-- C1: key derivation is a pure, order-insensitive function.  In this pure
embedding, two calls of `computeCacheKey` with identical parameter values are
identical terms, so determinism is definitional; the substantive half, proved
here, is that the key does not depend on the insertion order of the extra
parameters: any two insertion orders of the same extra-parameter map (whose
keys, as Python's calling convention guarantees, are distinct from the four
positional parameter names) yield equal keys. -/
theorem computeCacheKey_order_insensitive (provider model prompt : String)
    (temperature : Option ℚ) (kwargs1 kwargs2 : List (String × JsonVal))
    (hperm : kwargs1.Perm kwargs2)
    (hnodup : (kwargs1.map Prod.fst).Nodup)
    (hfixed : ∀ k ∈ kwargs1.map Prod.fst, k ∉ fixedParamNames) :
    computeCacheKey provider model prompt temperature kwargs1 =
      computeCacheKey provider model prompt temperature kwargs2 := by
  simp only [computeCacheKey]
  apply congrArg sha256Hex
  apply dumps_obj_eq_of_perm
  · exact List.Perm.append_left _ hperm
  · rw [List.map_append]
    rw [List.nodup_append]
    refine ⟨?_, hnodup, ?_⟩
    · show (["provider", "model", "prompt", "temperature"] : List String).Nodup
      decide
    · intro a ha hb
      exact hfixed a hb ha

/-- Witness for C1 at a concrete input: the two insertion orders of
`max_tokens` and `top_p` hash to the same key. -/
theorem computeCacheKey_order_insensitive_witness :
    ([("max_tokens", JsonVal.int 256), ("top_p", JsonVal.int 1)].Perm
        [("top_p", JsonVal.int 1), ("max_tokens", JsonVal.int 256)]) ∧
    (([("max_tokens", JsonVal.int 256), ("top_p", JsonVal.int 1)].map Prod.fst).Nodup) ∧
    (∀ k ∈ [("max_tokens", JsonVal.int 256), ("top_p", JsonVal.int 1)].map Prod.fst,
        k ∉ fixedParamNames) ∧
    computeCacheKey "openai" "gpt-4o" "hello" (some (7 / 10))
        [("max_tokens", JsonVal.int 256), ("top_p", JsonVal.int 1)] =
      computeCacheKey "openai" "gpt-4o" "hello" (some (7 / 10))
        [("top_p", JsonVal.int 1), ("max_tokens", JsonVal.int 256)] :=
  ⟨by decide, by decide, by decide,
   computeCacheKey_order_insensitive "openai" "gpt-4o" "hello" (some (7 / 10))
     [("max_tokens", JsonVal.int 256), ("top_p", JsonVal.int 1)]
     [("top_p", JsonVal.int 1), ("max_tokens", JsonVal.int 256)]
     (by decide) (by decide) (by decide)⟩

/-- C2: round-trip.  Storing a response and immediately (or at any time not
past the entry's TTL) reading it back with the same provider, model, prompt,
temperature and extra parameters returns exactly the stored response,
provided the entry's TTL is strictly positive. -/
theorem set_get_roundtrip (c : LLMCache) (st : Store) (now now2 : ℚ)
    (provider model prompt : String) (response : JsonVal)
    (temperature : Option ℚ) (ttl_override : Option Int)
    (kwargs : List (String × JsonVal))
    (httl : 0 < pyOrInt ttl_override c.ttl_seconds)
    (helapsed : now2 - now ≤ ((pyOrInt ttl_override c.ttl_seconds : Int) : ℚ)) :
    (LLMCache.get
        (c.set st now provider model prompt response temperature ttl_override kwargs).2
        now2 provider model prompt temperature kwargs).1 = .ok (some response) := by
  have hexp : (c.setEntry now provider model prompt response temperature ttl_override
      kwargs).is_expired now2 = false := by
    simp only [CacheEntry.is_expired, LLMCache.setEntry]
    rw [ratLtSub_eq_false]
    exact helapsed
  have hset : (c.set st now provider model prompt response temperature ttl_override kwargs).2 =
      Store.write st (computeCacheKey provider model prompt temperature kwargs)
        (.json (c.setEntry now provider model prompt response temperature ttl_override
          kwargs).to_dict) := rfl
  rw [hset, LLMCache.get,
    LLMCache.getAux_find_entry (Store.find_write_self st _ _), hexp]
  rfl

/-- Witness for C2 at a concrete input: a freshly constructed default store,
one `set` at time 0, one `get` at time 0 with the same parameters. -/
theorem set_get_roundtrip_witness :
    (0 < pyOrInt none (LLMCache.init none).ttl_seconds) ∧
    ((0 : ℚ) - 0 ≤ ((pyOrInt none (LLMCache.init none).ttl_seconds : Int) : ℚ)) ∧
    (LLMCache.get
        ((LLMCache.init none).set [] 0 "openai" "gpt-4o" "hello"
          (.obj [("content", .str "hi")]) none none []).2
        0 "openai" "gpt-4o" "hello" none []).1 =
      .ok (some (.obj [("content", .str "hi")])) :=
  ⟨by decide,
   by norm_num [pyOrInt, LLMCache.init, LLMCache.DEFAULT_TTL_SECONDS],
   set_get_roundtrip (LLMCache.init none) [] 0 0 "openai" "gpt-4o" "hello"
     (.obj [("content", .str "hi")]) none none [] (by decide)
     (by norm_num [pyOrInt, LLMCache.init, LLMCache.DEFAULT_TTL_SECONDS])⟩

/-- C3: lazy TTL expiry measured from creation.  For a persisted entry found
at the queried key: `get` reports a miss and deletes the file exactly when
`now - created_at > ttl_seconds`; an entry whose `ttl_seconds` is absent is
never expired and is returned as a hit; and the expiry decision is invariant
under changing `accessed_at` (here to an arbitrary `x`). -/
theorem get_ttl_expiry (st : Store) (now x : ℚ) (provider model prompt : String)
    (temperature : Option ℚ) (kwargs : List (String × JsonVal)) (e : CacheEntry)
    (hfind : Store.find st (computeCacheKey provider model prompt temperature kwargs) =
      some (.json e.to_dict)) :
    (((LLMCache.get st now provider model prompt temperature kwargs).1 = .ok none ∧
      (LLMCache.get st now provider model prompt temperature kwargs).2 =
        Store.erase st (computeCacheKey provider model prompt temperature kwargs)) ↔
      (∃ t, e.ttl_seconds = some t ∧ (t : ℚ) < now - e.created_at)) ∧
    (e.ttl_seconds = none →
      (LLMCache.get st now provider model prompt temperature kwargs).1 =
        .ok (some e.response)) ∧
    (({ e with accessed_at := x } : CacheEntry).is_expired now = e.is_expired now) := by
  have hbody := @LLMCache.getAux_find_entry st now
    (computeCacheKey provider model prompt temperature kwargs) e hfind
  have hexp_iff : e.is_expired now = true ↔
      (∃ t, e.ttl_seconds = some t ∧ (t : ℚ) < now - e.created_at) := by
    cases htl : e.ttl_seconds with
    | none => simp [CacheEntry.is_expired, htl]
    | some t => simp [CacheEntry.is_expired, htl, ratLtSub_iff]
  refine ⟨?_, ?_, ?_⟩
  · rw [← hexp_iff]
    constructor
    · intro hmiss
      by_contra hne
      rw [LLMCache.get, hbody] at hmiss
      rw [Bool.not_eq_true] at hne
      rw [hne] at hmiss
      simp at hmiss
    · intro hex
      rw [LLMCache.get, hbody, hex]
      simp
  · intro hnone
    have hexp : e.is_expired now = false := by
      simp [CacheEntry.is_expired, hnone]
    rw [LLMCache.get, hbody, hexp]
    rfl
  · simp [CacheEntry.is_expired]

/-- Concrete sample entry used by witnesses: created at time 0 with a
10-second TTL, one recorded access. -/
def entrySample : CacheEntry :=
  ⟨.obj [("content", .str "x")], "ck", "openai", "gpt-4o", "ph", 0, 0, 1, some 10, .obj []⟩

/-- The cache key of the sample request used by witnesses. -/
def keySample : String := computeCacheKey "openai" "gpt-4o" "p" none []

/-- A single-file namespace holding `entrySample` under `keySample`. -/
def storeSample : Store := [(keySample, .json entrySample.to_dict)]

/-- Witness for C3 at a concrete input: the sample entry is queried at time
20, past its 10-second TTL. -/
theorem get_ttl_expiry_witness :
    (Store.find storeSample (computeCacheKey "openai" "gpt-4o" "p" none []) =
      some (.json entrySample.to_dict)) ∧
    ((((LLMCache.get storeSample 20 "openai" "gpt-4o" "p" none []).1 = .ok none ∧
       (LLMCache.get storeSample 20 "openai" "gpt-4o" "p" none []).2 =
         Store.erase storeSample (computeCacheKey "openai" "gpt-4o" "p" none [])) ↔
      (∃ t, entrySample.ttl_seconds = some t ∧ (t : ℚ) < 20 - entrySample.created_at)) ∧
    (entrySample.ttl_seconds = none →
      (LLMCache.get storeSample 20 "openai" "gpt-4o" "p" none []).1 =
        .ok (some entrySample.response)) ∧
    (({ entrySample with accessed_at := 5 } : CacheEntry).is_expired 20 =
      entrySample.is_expired 20)) :=
  ⟨by decide,
   get_ttl_expiry storeSample 20 5 "openai" "gpt-4o" "p" none [] entrySample (by decide)⟩

/-- C4 (code bug): evaluation at the failing input.  A file that fails JSON
decoding is treated as a miss and deleted, as the claim says; but a file
holding the valid JSON object `\x7b\x7d` — which does not match the
`CacheEntry` shape — makes `get` raise `TypeError` (from `cls(**data)`,
which the `except (json.JSONDecodeError, KeyError, IOError)` clause does not
catch) and leaves the file in place, instead of the miss-and-delete the
claim requires. -/
theorem get_unparsable_file_behavior :
    (LLMCache.get [(keySample, FileContent.notJson)] 0 "openai" "gpt-4o" "p" none [] =
      (.ok none, [])) ∧
    (LLMCache.get [(keySample, FileContent.json (.obj []))] 0 "openai" "gpt-4o" "p" none [] =
      (.error .typeError, [(keySample, FileContent.json (.obj []))])) := by
  decide

/-- C5 counterexample: a TTL override of `0` is not honoured.  Because `set`
computes `ttl_seconds or self.ttl_seconds` and `0` is falsy, the stored
entry's TTL is the namespace default rather than the caller's `0`. -/
theorem set_ttl_zero_override_ignored :
    ((LLMCache.init none).setEntry 0 "openai" "gpt-4o" "p" (.obj []) none
        (some 0) []).ttl_seconds ≠ some 0 ∧
    ((LLMCache.init none).setEntry 0 "openai" "gpt-4o" "p" (.obj []) none
        (some 0) []).ttl_seconds = some LLMCache.DEFAULT_TTL_SECONDS := by
  decide

/-- C5 as amended: the stored entry's `ttl_seconds` equals the caller's
override whenever one is supplied and non-zero (an override of `0`, like
none at all, falls back to the namespace default, since Python's `or` treats
`0` as falsy); the namespace default is 30 days (2592000 seconds) when the
store was constructed without a TTL. -/
theorem set_ttl_amended (c : LLMCache) (now : ℚ) (provider model prompt : String)
    (response : JsonVal) (temperature : Option ℚ) (ttl_override : Option Int)
    (kwargs : List (String × JsonVal)) (hz : ttl_override ≠ some 0) :
    (c.setEntry now provider model prompt response temperature ttl_override
        kwargs).ttl_seconds = some (ttl_override.getD c.ttl_seconds) ∧
    (LLMCache.init none).ttl_seconds = 2592000 := by
  constructor
  · cases ttl_override with
    | none => rfl
    | some t =>
        have ht : t ≠ 0 := fun h => hz (by rw [h])
        simp [LLMCache.setEntry, pyOrInt, ht]
  · decide

/-- Witness for the amended C5 at a concrete input: an override of 5 seconds
on a store whose default TTL is 77 seconds. -/
theorem set_ttl_amended_witness :
    (some (5 : Int) ≠ some (0 : Int)) ∧
    (((LLMCache.init (some 77)).setEntry 0 "openai" "gpt-4o" "p" (.obj []) none
        (some 5) []).ttl_seconds =
      some ((some (5 : Int)).getD (LLMCache.init (some 77)).ttl_seconds) ∧
    (LLMCache.init none).ttl_seconds = 2592000) :=
  ⟨by decide,
   set_ttl_amended (LLMCache.init (some 77)) 0 "openai" "gpt-4o" "p" (.obj []) none
     (some 5) [] (by decide)⟩

theorem is_expired_update_access (e : CacheEntry) (t now : ℚ) :
    (e.update_access t).is_expired now = e.is_expired now := by
  cases e
  rfl

theorem LLMCache.set_snd (c : LLMCache) (st : Store) (now : ℚ)
    (provider model prompt : String) (response : JsonVal) (temperature : Option ℚ)
    (ttl_override : Option Int) (kwargs : List (String × JsonVal)) :
    (c.set st now provider model prompt response temperature ttl_override kwargs).2 =
      Store.write st (computeCacheKey provider model prompt temperature kwargs)
        (.json (c.setEntry now provider model prompt response temperature ttl_override
          kwargs).to_dict) := rfl

set_option maxHeartbeats 1600000 in
/-- C6: access bookkeeping.  `set` creates its entry with `access_count = 1`
and `created_at = accessed_at = now`; every hit on a persisted entry
increments `access_count` by exactly one, stamps `accessed_at` with the hit
time, and persists the update; consequently one `set` followed by two
immediate hits leaves the persisted entry with `access_count = 3`. -/
theorem access_bookkeeping (c : LLMCache) (st st2 : Store) (now now2 : ℚ)
    (provider model prompt : String) (response : JsonVal)
    (temperature : Option ℚ) (ttl_override : Option Int)
    (kwargs : List (String × JsonVal)) (e : CacheEntry)
    (httl : 0 < pyOrInt ttl_override c.ttl_seconds)
    (hfind2 : Store.find st2 (computeCacheKey provider model prompt temperature kwargs) =
      some (.json e.to_dict))
    (hnotexp : e.is_expired now2 = false) :
    ((c.setEntry now provider model prompt response temperature ttl_override
        kwargs).access_count = 1 ∧
     (c.setEntry now provider model prompt response temperature ttl_override
        kwargs).created_at = now ∧
     (c.setEntry now provider model prompt response temperature ttl_override
        kwargs).accessed_at = now) ∧
    (LLMCache.get st2 now2 provider model prompt temperature kwargs =
      (.ok (some e.response),
       Store.write st2 (computeCacheKey provider model prompt temperature kwargs)
         (.json ({ e with
                     accessed_at := now2
                     access_count := e.access_count + 1 } : CacheEntry).to_dict))) ∧
    (∃ e3 : CacheEntry,
      Store.find
          (LLMCache.get
            (LLMCache.get
              (c.set st now provider model prompt response temperature ttl_override kwargs).2
              now provider model prompt temperature kwargs).2
            now provider model prompt temperature kwargs).2
          (computeCacheKey provider model prompt temperature kwargs) =
        some (.json e3.to_dict) ∧
      e3.access_count = 3 ∧ e3.created_at = now ∧ e3.accessed_at = now) := by
  have hE : (c.setEntry now provider model prompt response temperature ttl_override
      kwargs).is_expired now = false := by
    simp only [CacheEntry.is_expired, LLMCache.setEntry]
    rw [ratLtSub_eq_false, sub_self]
    exact_mod_cast le_of_lt httl
  refine ⟨⟨rfl, rfl, rfl⟩, ?_, ?_⟩
  · rw [LLMCache.get, LLMCache.getAux_find_entry hfind2, hnotexp]
    rfl
  · have h1 : (LLMCache.get
        (Store.write st (computeCacheKey provider model prompt temperature kwargs)
          (.json (c.setEntry now provider model prompt response temperature ttl_override
            kwargs).to_dict))
        now provider model prompt temperature kwargs).2 =
        Store.write
          (Store.write st (computeCacheKey provider model prompt temperature kwargs)
            (.json (c.setEntry now provider model prompt response temperature ttl_override
              kwargs).to_dict))
          (computeCacheKey provider model prompt temperature kwargs)
          (.json ((c.setEntry now provider model prompt response temperature ttl_override
            kwargs).update_access now).to_dict) := by
      rw [LLMCache.get, LLMCache.getAux_find_entry (Store.find_write_self _ _ _), hE]
      rfl
    have hE2 : ((c.setEntry now provider model prompt response temperature ttl_override
        kwargs).update_access now).is_expired now = false :=
      (is_expired_update_access _ _ _).trans hE
    have h2 : (LLMCache.get
        (Store.write
          (Store.write st (computeCacheKey provider model prompt temperature kwargs)
            (.json (c.setEntry now provider model prompt response temperature ttl_override
              kwargs).to_dict))
          (computeCacheKey provider model prompt temperature kwargs)
          (.json ((c.setEntry now provider model prompt response temperature ttl_override
            kwargs).update_access now).to_dict))
        now provider model prompt temperature kwargs).2 =
        Store.write
          (Store.write
            (Store.write st (computeCacheKey provider model prompt temperature kwargs)
              (.json (c.setEntry now provider model prompt response temperature ttl_override
                kwargs).to_dict))
            (computeCacheKey provider model prompt temperature kwargs)
            (.json ((c.setEntry now provider model prompt response temperature ttl_override
              kwargs).update_access now).to_dict))
          (computeCacheKey provider model prompt temperature kwargs)
          (.json (((c.setEntry now provider model prompt response temperature ttl_override
            kwargs).update_access now).update_access now).to_dict) := by
      rw [LLMCache.get, LLMCache.getAux_find_entry (Store.find_write_self _ _ _), hE2]
      rfl
    refine ⟨((c.setEntry now provider model prompt response temperature ttl_override
        kwargs).update_access now).update_access now, ?_, ?_, ?_, ?_⟩
    · rw [LLMCache.set_snd]
      rw [h1]
      rw [h2]
      exact Store.find_write_self _ _ _
    · norm_num [CacheEntry.update_access, LLMCache.setEntry]
    · norm_num [CacheEntry.update_access, LLMCache.setEntry]
    · norm_num [CacheEntry.update_access, LLMCache.setEntry]

/-- Witness for C6 at a concrete input: the sample entry (one prior access)
is hit at time 1, and an independent fresh set-then-two-hits run at time 0
ends with a persisted count of 3. -/
theorem access_bookkeeping_witness :
    (0 < pyOrInt none (LLMCache.init none).ttl_seconds) ∧
    (Store.find storeSample (computeCacheKey "openai" "gpt-4o" "p" none []) =
      some (.json entrySample.to_dict)) ∧
    (entrySample.is_expired 1 = false) ∧
    ((((LLMCache.init none).setEntry 0 "openai" "gpt-4o" "p" (.obj [("content", .str "hi")])
        none none []).access_count = 1 ∧
      ((LLMCache.init none).setEntry 0 "openai" "gpt-4o" "p" (.obj [("content", .str "hi")])
        none none []).created_at = 0 ∧
      ((LLMCache.init none).setEntry 0 "openai" "gpt-4o" "p" (.obj [("content", .str "hi")])
        none none []).accessed_at = 0) ∧
    (LLMCache.get storeSample 1 "openai" "gpt-4o" "p" none [] =
      (.ok (some entrySample.response),
       Store.write storeSample (computeCacheKey "openai" "gpt-4o" "p" none [])
         (.json ({ entrySample with
                   accessed_at := 1
                   access_count := entrySample.access_count + 1 } : CacheEntry).to_dict))) ∧
    (∃ e3 : CacheEntry,
      Store.find
          (LLMCache.get
            (LLMCache.get
              ((LLMCache.init none).set [] 0 "openai" "gpt-4o" "p"
                (.obj [("content", .str "hi")]) none none []).2
              0 "openai" "gpt-4o" "p" none []).2
            0 "openai" "gpt-4o" "p" none []).2
          (computeCacheKey "openai" "gpt-4o" "p" none []) =
        some (.json e3.to_dict) ∧
      e3.access_count = 3 ∧ e3.created_at = 0 ∧ e3.accessed_at = 0)) :=
  ⟨by decide, by decide, by decide,
   access_bookkeeping (LLMCache.init none) [] storeSample 0 1 "openai" "gpt-4o" "p"
     (.obj [("content", .str "hi")]) none none [] entrySample
     (by decide) (by decide) (by decide)⟩

/-- C7 as amended: when the cache lookup misses and the wrapped gateway
raises, the gateway's exception propagates unmodified and nothing is written:
the store after the failed call is exactly the store the lookup produced
(which differs from the pre-call store only by the lazy deletion of an
expired or undecodable entry during the lookup); in particular, when no file
exists at the derived key, the store is completely unchanged. -/
theorem call_miss_gateway_error {ε : Type} (g : CachedLLMGateway)
    (gwCall : PromptBundle → Except ε LLMResponse) (st : Store) (now : ℚ)
    (b : PromptBundle) (err : ε)
    (henable : g.enable_cache = true)
    (hmiss : (LLMCache.get st now g.provider g.model (prompt_bundle_to_string b)
        b.temperature (CachedLLMGateway.callKwargs b)).1 = .ok none)
    (hgw : gwCall b = .error err) :
    CachedLLMGateway.call g gwCall st now b =
      (.error (.gw err),
       (LLMCache.get st now g.provider g.model (prompt_bundle_to_string b)
          b.temperature (CachedLLMGateway.callKwargs b)).2) ∧
    (Store.find st (computeCacheKey g.provider g.model (prompt_bundle_to_string b)
        b.temperature (CachedLLMGateway.callKwargs b)) = none →
      CachedLLMGateway.call g gwCall st now b = (.error (.gw err), st)) := by
  have hmain : CachedLLMGateway.call g gwCall st now b =
      (.error (.gw err),
       (LLMCache.get st now g.provider g.model (prompt_bundle_to_string b)
          b.temperature (CachedLLMGateway.callKwargs b)).2) := by
    unfold CachedLLMGateway.call
    rw [henable]
    rw [if_neg (by simp)]
    rcases hget : LLMCache.get st now g.provider g.model (prompt_bundle_to_string b)
        b.temperature (CachedLLMGateway.callKwargs b) with ⟨q, st1⟩
    rw [hget] at hmiss
    simp only at hmiss
    subst hmiss
    simp only [CachedLLMGateway.missPath, hgw]
  refine ⟨hmain, ?_⟩
  intro hfind
  have hst : LLMCache.get st now g.provider g.model (prompt_bundle_to_string b)
      b.temperature (CachedLLMGateway.callKwargs b) = (.ok none, st) := by
    rw [LLMCache.get]
    exact LLMCache.getAux_find_none hfind
  rw [hmain, hst]

/-- The request bundle used by the gateway-level samples. -/
def bundleSample : PromptBundle := ⟨[("user", "hi")], none, none⟩

/-- The cache key `CachedLLMGateway.call` derives for `bundleSample`. -/
def keyCallSample : String :=
  computeCacheKey "openai" "gpt-4o" (prompt_bundle_to_string bundleSample) none
    [("max_tokens", JsonVal.null)]

/-- An entry for `bundleSample` that is already expired at time 20
(created at 0 with a 1-second TTL). -/
def entryExpiredSample : CacheEntry :=
  ⟨.obj [("content", .str "x")], "ck", "openai", "gpt-4o", "ph", 0, 0, 1, some 1, .obj []⟩

/-- A namespace holding only the expired entry for `bundleSample`. -/
def storeCallSample : Store := [(keyCallSample, .json entryExpiredSample.to_dict)]

/-- A caching decorator around an `openai`/`gpt-4o` gateway with caching
enabled and the default TTL. -/
def gwSample : CachedLLMGateway := ⟨"openai", "gpt-4o", true, LLMCache.init none⟩

/-- C7 counterexample: the claim's "the cache state is unchanged" is false
as stated.  With an expired entry persisted at the request's key, a call
whose gateway raises still mutates the store: the lookup's lazy eviction
deletes the expired file before the gateway is invoked, so the post-call
store differs from the pre-call store even though the error propagates and
nothing is written. -/
theorem call_miss_gateway_error_counterexample :
    (CachedLLMGateway.call gwSample (fun _ => .error (7 : Nat)) storeCallSample 20
        bundleSample).1 = .error (.gw 7) ∧
    (CachedLLMGateway.call gwSample (fun _ => .error (7 : Nat)) storeCallSample 20
        bundleSample).2 ≠ storeCallSample ∧
    (CachedLLMGateway.call gwSample (fun _ => .error (7 : Nat)) storeCallSample 20
        bundleSample).2 = [] := by
  decide

/-- Witness for the amended C7 at a concrete input: an empty namespace (a
clean miss) and a gateway that raises; the error propagates and the store is
unchanged. -/
theorem call_miss_gateway_error_witness :
    (gwSample.enable_cache = true) ∧
    ((LLMCache.get [] 20 gwSample.provider gwSample.model
        (prompt_bundle_to_string bundleSample) bundleSample.temperature
        (CachedLLMGateway.callKwargs bundleSample)).1 = .ok none) ∧
    ((fun _ : PromptBundle => (.error 7 : Except Nat LLMResponse)) bundleSample =
      .error 7) ∧
    ((CachedLLMGateway.call gwSample (fun _ => .error (7 : Nat)) [] 20 bundleSample =
      (.error (.gw 7),
       (LLMCache.get [] 20 gwSample.provider gwSample.model
          (prompt_bundle_to_string bundleSample) bundleSample.temperature
          (CachedLLMGateway.callKwargs bundleSample)).2)) ∧
    (Store.find [] (computeCacheKey gwSample.provider gwSample.model
        (prompt_bundle_to_string bundleSample) bundleSample.temperature
        (CachedLLMGateway.callKwargs bundleSample)) = none →
      CachedLLMGateway.call gwSample (fun _ => .error (7 : Nat)) [] 20 bundleSample =
        (.error (.gw 7), []))) :=
  ⟨by decide, by decide, by decide,
   call_miss_gateway_error gwSample (fun _ => .error (7 : Nat)) [] 20 bundleSample 7
     (by decide) (by decide) (by decide)⟩

theorem reyieldChunks_eq : ∀ chunks : List LLMResponse, reyieldChunks chunks = chunks
  | [] => rfl
  | c :: rest => by rw [reyieldChunks, reyieldChunks_eq rest]

/-- C8: streaming bypass.  For every store — in particular one already
holding an entry for the identical parameters — `stream` yields exactly the
wrapped gateway's chunk sequence and leaves the namespace untouched: no
entry is created, read-updated, or deleted. -/
theorem stream_bypasses_cache (g : CachedLLMGateway)
    (gwStream : PromptBundle → List LLMResponse) (st : Store) (b : PromptBundle) :
    (CachedLLMGateway.stream g gwStream st b).1 = gwStream b ∧
    (CachedLLMGateway.stream g gwStream st b).2 = st :=
  ⟨reyieldChunks_eq (gwStream b), rfl⟩

/-- C9 (code bug): `get_stats` on the empty namespace, and on a namespace
whose only file fails JSON decoding, returns the all-zero statistics without
exception — the division-by-zero branch is never taken.  But on a namespace
whose only file holds the valid JSON object `\x7b\x7d` — zero parsable
entries — the scan raises `TypeError` from `cls(**data)` instead of
returning, because the loop's `except (json.JSONDecodeError, KeyError,
IOError): pass` clause does not catch `TypeError`. -/
theorem get_stats_zero_entries_behavior :
    (LLMCache.get_stats [] 0 = some ⟨0, 0, 0, 0, 0, 0, 0⟩) ∧
    (LLMCache.get_stats [(keySample, FileContent.notJson)] 0 =
      some ⟨0, 0, 0, 0, 0, 0, 0⟩) ∧
    (LLMCache.get_stats [(keySample, FileContent.json (.obj []))] 0 = none) ∧
    (∀ st : Store, ∀ now : ℚ, ∀ s : CacheStats,
      LLMCache.get_stats st now = some s →
        s.active_entries = s.total_entries - s.expired_entries) := by
  refine ⟨by decide, by decide, by decide, ?_⟩
  intro st now s h
  unfold LLMCache.get_stats at h
  cases hl : statsLoop now st {} with
  | none => rw [hl] at h; cases h
  | some a =>
      rw [hl] at h
      simp only [Option.some.injEq] at h
      rw [← h]

/-- Witness for the universally quantified part of C9's theorem at a
concrete input: a namespace with one undecodable file yields the all-zero
statistics, whose `active_entries` is `total_entries - expired_entries`. -/
theorem get_stats_zero_entries_behavior_witness :
    (LLMCache.get_stats [(keySample, FileContent.notJson)] 0 =
      some ⟨0, 0, 0, 0, 0, 0, 0⟩) ∧
    ((⟨0, 0, 0, 0, 0, 0, 0⟩ : CacheStats).active_entries =
      (⟨0, 0, 0, 0, 0, 0, 0⟩ : CacheStats).total_entries -
        (⟨0, 0, 0, 0, 0, 0, 0⟩ : CacheStats).expired_entries) :=
  ⟨by decide,
   get_stats_zero_entries_behavior.2.2.2 [(keySample, FileContent.notJson)] 0
     ⟨0, 0, 0, 0, 0, 0, 0⟩ (by decide)⟩

/-- C10: `CachedLLMGateway.call` guards the hit branch with Python
truthiness (`if cached_response:`), so a cached payload that is falsy — in
particular an empty stored dict — is treated exactly like a miss: the call
delegates to the wrapped gateway and re-stores its result.  A truthy cached
payload short-circuits into reconstruction from the cache.  For a stored
dict, truthy means non-empty, so a hit is returned only when the stored
response dict is non-empty. -/
theorem call_falsy_cached_payload {ε : Type} (g : CachedLLMGateway)
    (gwCall : PromptBundle → Except ε LLMResponse) (st st1 : Store) (now : ℚ)
    (b : PromptBundle) (v : JsonVal) (resp : LLMResponse)
    (fields : List (String × JsonVal))
    (henable : g.enable_cache = true)
    (hget : LLMCache.get st now g.provider g.model (prompt_bundle_to_string b)
        b.temperature (CachedLLMGateway.callKwargs b) = (.ok (some v), st1))
    (hgw : gwCall b = .ok resp) :
    (pyTruthy v = false →
      CachedLLMGateway.call g gwCall st now b =
        (.ok resp,
         (LLMCache.set g.cache st1 now g.provider g.model (prompt_bundle_to_string b)
            (llm_response_to_dict resp) b.temperature none
            (CachedLLMGateway.callKwargs b)).2)) ∧
    (pyTruthy v = true →
      CachedLLMGateway.call g gwCall st now b =
        (match dict_to_llm_response v with
         | .ok r => (.ok r, st1)
         | .error e => (.error (.py e), st1))) ∧
    (pyTruthy (.obj fields) = !fields.isEmpty) := by
  refine ⟨?_, ?_, rfl⟩
  · intro hfalsy
    unfold CachedLLMGateway.call
    rw [henable, if_neg (by simp), hget]
    simp only [hfalsy, Bool.false_eq_true, if_false]
    simp only [CachedLLMGateway.missPath, hgw]
  · intro htruthy
    unfold CachedLLMGateway.call
    rw [henable, if_neg (by simp), hget]
    simp only [htruthy, if_true]

/-- An entry for `bundleSample` whose stored response is the empty dict — a
falsy payload — still live at time 0 (100-second TTL). -/
def entryFalsySample : CacheEntry :=
  ⟨.obj [], "ck", "openai", "gpt-4o", "ph", 0, 0, 1, some 100, .obj []⟩

/-- A namespace holding only the falsy-payload entry for `bundleSample`. -/
def storeFalsySample : Store := [(keyCallSample, .json entryFalsySample.to_dict)]

/-- A fresh gateway response used by the C10 witness. -/
def respSample : LLMResponse :=
  ⟨.str "pong", .str "openai", .str "gpt-4o", .null, .int 0, ⟨.int 0, .int 0, .int 0⟩⟩

/-- Witness for C10 at a concrete input: the stored empty-dict payload is
falsy, so the call delegates to the gateway and re-stores its fresh
response. -/
theorem call_falsy_cached_payload_witness :
    (gwSample.enable_cache = true) ∧
    (LLMCache.get storeFalsySample 0 gwSample.provider gwSample.model
        (prompt_bundle_to_string bundleSample) bundleSample.temperature
        (CachedLLMGateway.callKwargs bundleSample) =
      (.ok (some (.obj [])),
       Store.write storeFalsySample keyCallSample
         (.json (entryFalsySample.update_access 0).to_dict))) ∧
    ((fun _ : PromptBundle => (.ok respSample : Except Nat LLMResponse)) bundleSample =
      (.ok respSample : Except Nat LLMResponse)) ∧
    ((pyTruthy (.obj []) = false →
      CachedLLMGateway.call gwSample (fun _ : PromptBundle => (.ok respSample : Except Nat LLMResponse)) storeFalsySample 0
          bundleSample =
        (.ok respSample,
         (LLMCache.set gwSample.cache
            (Store.write storeFalsySample keyCallSample
              (.json (entryFalsySample.update_access 0).to_dict))
            0 gwSample.provider gwSample.model (prompt_bundle_to_string bundleSample)
            (llm_response_to_dict respSample) bundleSample.temperature none
            (CachedLLMGateway.callKwargs bundleSample)).2)) ∧
    (pyTruthy (.obj []) = true →
      CachedLLMGateway.call gwSample (fun _ : PromptBundle => (.ok respSample : Except Nat LLMResponse)) storeFalsySample 0
          bundleSample =
        ((match dict_to_llm_response (.obj []) with
          | .ok r => (.ok r,
              Store.write storeFalsySample keyCallSample
                (.json (entryFalsySample.update_access 0).to_dict))
          | .error e => (.error (.py e),
              Store.write storeFalsySample keyCallSample
                (.json (entryFalsySample.update_access 0).to_dict))) :
          Except (CallErr Nat) LLMResponse × Store)) ∧
    (pyTruthy (.obj [("content", JsonVal.str "x")]) =
      !(([("content", JsonVal.str "x")] : List (String × JsonVal)).isEmpty))) :=
  ⟨by decide, by decide, rfl,
   call_falsy_cached_payload gwSample (fun _ : PromptBundle => (.ok respSample : Except Nat LLMResponse)) storeFalsySample
     (Store.write storeFalsySample keyCallSample
       (.json (entryFalsySample.update_access 0).to_dict))
     0 bundleSample (.obj []) respSample [("content", JsonVal.str "x")]
     (by decide) (by decide) (by decide)⟩
